import Mathlib

/-!
Verification development for the trade-execution relay bot (`bot.py`).

The source is a single Flask application with two handlers:
* `telegram_config` (lines 44-120): parses one operator text message and
  updates the in-memory state (preset registry `presets`, interactive
  sessions `user_states`, and the mutable `webhook_secret`).
* `webhook` (lines 124-157): authenticates an inbound signal by HMAC over
  the raw payload, looks up the ticker's preset, fetches a market/account
  snapshot from the brokerage API, and runs the buy/sell decision logic.

Modelling conventions:
* Python floats are modelled as exact rationals (`ℚ`); the comparisons and
  divisions involved are order/field operations that floats approximate.
* Python float division raises `ZeroDivisionError` on a zero divisor, so
  division is modelled by `pydiv` returning `Except`.
* External effects (Telegram `notify`, `ib.placeOrder`) are modelled as
  values accumulated in the result (a `List Note`, a `List Order`).
* The HMAC-SHA256 hex digest (`hmac.new(...).hexdigest()`) and JSON parsing
  (`json.loads`) are external library primitives; they enter the model as
  function parameters (`hmacHex`, `parse`), so every theorem quantifying
  over them holds for the real primitives in particular.
* Python `str.strip/upper/lower/split` are modelled by the corresponding
  executable functions below (exact on the ASCII command strings involved).

A central fact about the source, established by `webhook` below: on lines
131-132,

    ticker = data.get("ticker",""").upper()
    signal = data.get("signal",""").upper()

the `"""` after the comma opens a triple-quoted string literal that runs to
the `"""` on the next line, so the two lines parse as a single assignment to
`ticker` (whose default argument is the string `).upper()\n    signal =
data.get("signal",`) and the name `signal` is never bound.  Python therefore
raises `NameError` at line 142 (`if signal == "BUY":`) on every request that
reaches the decision code, and Flask turns the uncaught exception into an
HTTP 500 response.
-/

attribute [local semireducible] Rat.mul Rat.inv Rat.add Rat.sub

/-- Python runtime exceptions that the handlers can raise (uncaught
exceptions become HTTP 500 responses in Flask). -/
inductive PyErr where
  | zeroDivision
  | nameError
  | jsonDecode
  | keyError
deriving DecidableEq, Repr

/-- A trading preset, the value stored in the `presets` dict:
`{"order_size": float, "min_profit_pct": float}` (lines 75 and 102). -/
structure Preset where
  order_size : ℚ
  min_profit_pct : ℚ
deriving DecidableEq, Repr

/-- A brokerage position as used on lines 150-153: `pos.position` (signed
quantity) and `pos.avgCost`. -/
structure Position where
  position : ℚ
  avgCost : ℚ
deriving DecidableEq, Repr

/-- Point-in-time market/account data that `webhook` reads from the
brokerage API (lines 140, 143, 150, 151): last price, available funds,
optional position, unrealized PnL. -/
structure Snapshot where
  last : ℚ
  availableFunds : ℚ
  pos : Option Position
  pnl : ℚ
deriving DecidableEq, Repr

/-- The outcome of the decision code, lines 142-155.  The source has one
shared skip branch for the whole SELL side (line 155 prints the same
`Skip SELL` message whether there is no position or the profit threshold is
not met); `skipSell` carries the PnL value the message reports. -/
inductive Decision where
  | placeBuy (qty price : ℚ)
  | skipInsufficientFunds
  | placeSell (qty price : ℚ)
  | skipSell (pnl : ℚ)
deriving DecidableEq, Repr

/-- Python float division: `a / b` raises `ZeroDivisionError` when `b == 0`
(also for floats), otherwise yields the quotient. -/
def pydiv (a b : ℚ) : Except PyErr ℚ :=
  if b = 0 then .error .zeroDivision else .ok (a / b)

/-- The trade-decision logic of `webhook`, lines 142-155, as a pure function
of the signal string, the preset `cfg`, and the snapshot.  Faithful points:
a BUY computes `qty = cfg["order_size"]/price` (line 144) before the funds
check, so a zero price raises even when funds are insufficient; every
non-"BUY" signal takes the `else:` SELL branch (line 149); the SELL
condition `pos and pos.position>0 and pnl/(pos.avgCost*pos.position)>=...`
(line 152) short-circuits, dividing only when a position with positive
quantity exists.  (In the source this code is unreachable from the webhook
because `signal` is never bound — see `webhook` below; this function embeds
the lines as written, with `signal` as an input.) -/
def decideTrade (signal : String) (cfg : Preset) (snap : Snapshot) :
    Except PyErr Decision :=
  if signal = "BUY" then
    match pydiv cfg.order_size snap.last with
    | .error e => .error e
    | .ok qty =>
      if snap.availableFunds ≥ cfg.order_size then
        .ok (.placeBuy qty snap.last)
      else
        .ok .skipInsufficientFunds
  else
    match snap.pos with
    | none => .ok (.skipSell snap.pnl)
    | some p =>
      if p.position > 0 then
        match pydiv snap.pnl (p.avgCost * p.position) with
        | .error e => .error e
        | .ok ratio =>
          if ratio ≥ cfg.min_profit_pct then
            .ok (.placeSell p.position snap.last)
          else
            .ok (.skipSell snap.pnl)
      else .ok (.skipSell snap.pnl)

/-- Dict lookup (`d.get(k)` / `d[k]`) on an association list modelling a
Python dict. -/
def lookupA {α β : Type} [DecidableEq α] (m : List (α × β)) (k : α) :
    Option β :=
  match m with
  | [] => none
  | (k', v) :: rest => if k' = k then some v else lookupA rest k

/-- Dict assignment (`d[k] = v`): replaces the value in place if the key is
present (Python dicts keep the key's insertion position), appends otherwise. -/
def upsertA {α β : Type} [DecidableEq α] (m : List (α × β)) (k : α) (v : β) :
    List (α × β) :=
  match m with
  | [] => [(k, v)]
  | (k', v') :: rest =>
    if k' = k then (k, v) :: rest else (k', v') :: upsertA rest k v

/-- Dict removal (`d.pop(k)`): removes the first (for duplicate-free keys,
the only) entry with key `k`. -/
def removeA {α β : Type} [DecidableEq α] (m : List (α × β)) (k : α) :
    List (α × β) :=
  match m with
  | [] => []
  | (k', v) :: rest =>
    if k' = k then rest else (k', v) :: removeA rest k

/-- Python `str.strip()`: remove leading and trailing whitespace.
(Implemented over the character list so that it evaluates by kernel
reduction; Lean's own `String.trim` is defined by well-founded recursion on
byte positions and does not.) -/
def pyStrip (s : String) : String :=
  ⟨((s.data.dropWhile Char.isWhitespace).reverse.dropWhile
      Char.isWhitespace).reverse⟩

/-- Python `str.lower()` (exact on ASCII, which covers every command
keyword the handler compares against). -/
def pyLower (s : String) : String :=
  ⟨s.data.map Char.toLower⟩

/-- Python `str.upper()` (exact on ASCII). -/
def pyUpper (s : String) : String :=
  ⟨s.data.map Char.toUpper⟩

/-- Python `str.startswith(pre)`. -/
def pyStartsWith (s pre : String) : Bool :=
  pre.data.isPrefixOf s.data

/-- Splitter for Python `str.split()`: split a character list on runs of
whitespace, dropping empty pieces; `acc` holds the current token reversed. -/
def pySplitAux : List Char → List Char → List (List Char)
  | [], acc => if acc = [] then [] else [acc.reverse]
  | c :: cs, acc =>
    if c.isWhitespace then
      if acc = [] then pySplitAux cs [] else acc.reverse :: pySplitAux cs []
    else pySplitAux cs (c :: acc)

/-- Python `str.split()` with no arguments: split on runs of whitespace,
dropping empty pieces. -/
def pySplit (s : String) : List String :=
  (pySplitAux s.data []).map fun l => ⟨l⟩

/-- Python `str.split(maxsplit=1)[1]` on a string that has been stripped and
starts with a non-whitespace token followed by a space: everything after the
first run of whitespace. -/
def pySplitRest (s : String) : String :=
  ⟨(s.data.dropWhile (fun c => !c.isWhitespace)).dropWhile Char.isWhitespace⟩

/-- Value of a list of decimal digit characters. -/
def digitsVal (l : List Char) : ℕ :=
  l.foldl (fun acc c => 10 * acc + (c.toNat - '0'.toNat)) 0

/-- Python `float(text)` on plain decimal notation: optional surrounding
whitespace, optional sign, digits with an optional fractional part (at least
one digit overall), e.g. `"100"`, `"-5"`, `"5."`, `".5"`.  Returns `none`
when `float()` would raise `ValueError`.  (Python also accepts exponent and
`inf`/`nan` forms; theorems about parse-dependent behaviour only assume the
parse outcome, so the common-decimal subset is what the concrete runs use.) -/
def pyFloat (s : String) : Option ℚ :=
  let cs := (pyStrip s).data
  let (sign, cs) : ℚ × List Char :=
    match cs with
    | '-' :: rest => (-1, rest)
    | '+' :: rest => (1, rest)
    | _ => (1, cs)
  let intPart := cs.takeWhile Char.isDigit
  let rest := cs.dropWhile Char.isDigit
  match rest with
  | [] =>
    if intPart = [] then none
    else some (sign * (digitsVal intPart : ℚ))
  | '.' :: fracPart =>
    if fracPart.all Char.isDigit ∧ (intPart ≠ [] ∨ fracPart ≠ []) then
      some (sign * ((digitsVal intPart : ℚ) +
        (digitsVal fracPart : ℚ) / (10 : ℚ) ^ fracPart.length))
    else none
  | _ => none

/-- One notification sent to the operator via `notify` (the message text of
each branch is abstracted to a tag carrying the data it interpolates). -/
inductive Note where
  | secretUpdated
  | currentSecret (s : String)
  | usage
  | presetSaved (ticker : String)
  | enterTicker
  | enterSize
  | enterProfit
  | numberOnly
  | savedPreset (ticker : String)
  | noPresets
  | showPresets (entries : List (String × Preset))
  | helpText
  | noPreset (ticker : String)
deriving DecidableEq, Repr

/-- An order submitted through `ib.placeOrder` (lines 146 and 153). -/
structure Order where
  side : String
  qty : ℚ
  price : ℚ
deriving DecidableEq, Repr

/-- Step of an interactive configuration session: the `"step"` key of a
`user_states` entry (`"ticker"`, `"size"`, `"profit"`). -/
inductive Step where
  | ticker
  | size
  | profit
deriving DecidableEq, Repr

/-- An interactive session: the per-chat dict stored in `user_states`,
whose `"ticker"` and `"order_size"` keys are added as the session advances. -/
structure Session where
  step : Step
  ticker : Option String
  order_size : Option ℚ
deriving DecidableEq, Repr

/-- The bot's in-memory mutable state: `presets` (line 35), `user_states`
(line 36), and the module-global `webhook_secret` (line 26). -/
structure BotState where
  presets : List (String × Preset)
  user_states : List (Int × Session)
  webhook_secret : String
deriving DecidableEq, Repr

/-- The `/telegram` handler (`telegram_config`, lines 44-120) as a function
of the configured operator chat id, the current state, the sender's chat id,
and the raw message text.  Returns the new state, the HTTP status, and the
notifications sent.  Branches in source order: the operator check (403);
`/setsecret ` prefix; `/getsecret`; the `/set ` one-shot form, which returns
only when the text splits into exactly 4 tokens (with fewer/more tokens
control falls through, as in the source, where the inner `if` has no
`else`); opening a session with `/set` when none is open; the
`if state:` session block, which consumes ANY text when a session is open;
then `/show` and the help text.  The unreachable missing-key case of the
profit step models Python's `KeyError`. -/
def telegram_config (opChatId : String) (st : BotState) (chat_id : Int)
    (rawText : String) : Except PyErr (BotState × ℕ × List Note) :=
  let text := pyStrip rawText
  if toString chat_id = opChatId then
    if pyStartsWith (pyLower text) "/setsecret " then
      .ok ({st with webhook_secret := pySplitRest text}, 200, [.secretUpdated])
    else if pyLower text = "/getsecret" then
      .ok (st, 200, [.currentSecret st.webhook_secret])
    else if pyStartsWith (pyLower text) "/set " ∧ (pySplit text).length = 4 then
      let parts := pySplit text
      let tk := pyUpper (parts.getD 1 "")
      match pyFloat (parts.getD 2 ""), pyFloat (parts.getD 3 "") with
      | some sz, some pf =>
        .ok ({st with presets := upsertA st.presets tk ⟨sz, pf / 100⟩},
             200, [.presetSaved tk])
      | _, _ => .ok (st, 200, [.usage])
    else
      match lookupA st.user_states chat_id with
      | none =>
        if pyLower text = "/set" then
          let sess' : Session := ⟨.ticker, none, none⟩
          .ok ({st with user_states := upsertA st.user_states chat_id sess'},
               200, [.enterTicker])
        else if pyLower text = "/show" then
          if st.presets = [] then .ok (st, 200, [.noPresets])
          else .ok (st, 200, [.showPresets st.presets])
        else .ok (st, 200, [.helpText])
      | some sess =>
        match sess.step with
        | .ticker =>
          let sess' : Session := ⟨.size, some (pyUpper text), sess.order_size⟩
          .ok ({st with user_states := upsertA st.user_states chat_id sess'},
               200, [.enterSize])
        | .size =>
          match pyFloat text with
          | none => .ok (st, 200, [.numberOnly])
          | some q =>
            let sess' : Session := ⟨.profit, sess.ticker, some q⟩
            .ok ({st with user_states := upsertA st.user_states chat_id sess'},
                 200, [.enterProfit])
        | .profit =>
          match pyFloat text with
          | none => .ok (st, 200, [.numberOnly])
          | some pf =>
            match sess.ticker, sess.order_size with
            | some tk, some os =>
              .ok ({st with
                      presets := upsertA st.presets tk ⟨os, pf / 100⟩,
                      user_states := removeA st.user_states chat_id},
                   200, [.savedPreset tk])
            | _, _ => .error .keyError
  else .ok (st, 403, [])

/-- Result of `json.loads` on the raw payload followed by `.get` on the
`"ticker"` and `"signal"` keys: either a JSON decode failure or an object
with the two optional string fields. -/
inductive ParsedBody where
  | malformed
  | obj (ticker : Option String) (signal : Option String)

/-- The default argument of `data.get("ticker", ...)` on lines 131-132: the
triple-quoted string literal opened by `"""` on line 131 and closed by the
`"""` on line 132 — i.e. the text between them, which swallows what was
meant to be the `signal` assignment. -/
def tickerDefaultLit : String :=
  ").upper()\n    signal = data.get(\x22signal\x22,"

/-- The `/webhook` handler (lines 124-157).  Parameters: `hmacHex s p` is
`hmac.new(s.encode(), p, hashlib.sha256).hexdigest()`; `parse` is
`json.loads` plus field extraction; `_mkt` is the snapshot the brokerage
calls on lines 138-140 would return (assumed to succeed).  Returns the state
(the handler performs no writes) and either an HTTP outcome
(status, notifications, orders) or an uncaught Python exception.  Control
flow: signature mismatch → `abort(403)` (a client-error response, no body,
nothing parsed); JSON decode failure → uncaught `JSONDecodeError`; no preset
for the ticker → notify and 200; otherwise line 142 evaluates the unbound
name `signal` (see the header comment: lines 131-132 parse as a single
assignment to `ticker`) → uncaught `NameError`.  The decision code of lines
142-155 (embedded separately as `decide`) and the `ib.placeOrder` calls are
unreachable. -/
def webhook (hmacHex : String → String → String)
    (parse : String → ParsedBody) (st : BotState) (rawPayload sig : String)
    (_mkt : Snapshot) :
    BotState × Except PyErr (ℕ × List Note × List Order) :=
  let expected := hmacHex st.webhook_secret rawPayload
  if sig = expected then
    match parse rawPayload with
    | .malformed => (st, .error .jsonDecode)
    | .obj tk? _ =>
      let ticker := pyUpper (tk?.getD tickerDefaultLit)
      match lookupA st.presets ticker with
      | none => (st, .ok (200, [.noPreset ticker], []))
      | some _ => (st, .error .nameError)
  else (st, .ok (403, [], []))

/-- The signature check of lines 126-128: `hmac.compare_digest(sig,
expected)` where `expected = hmac.new(webhook_secret.encode(), payload,
hashlib.sha256).hexdigest()`.  `compare_digest` on strings is (constant
time) string equality. -/
def verify (hmacHex : String → String → String)
    (secret payload sig : String) : Bool :=
  sig == hmacHex secret payload

/-- Runs a sequence of operator messages from one chat through
`telegram_config`, threading the state; `none` if any message raises. -/
def runMsgs (opChatId : String) (chat_id : Int) :
    BotState → List String → Option BotState
  | st, [] => some st
  | st, t :: ts =>
    match telegram_config opChatId st chat_id t with
    | .ok (st', _, _) => runMsgs opChatId chat_id st' ts
    | .error _ => none

/-- After a dict write, looking up the written key yields the new value. -/
theorem lookupA_upsertA_self {α β : Type} [DecidableEq α]
    (m : List (α × β)) (k : α) (v : β) :
    lookupA (upsertA m k v) k = some v := by
  induction m with
  | nil => simp [upsertA, lookupA]
  | cons hd tl ih =>
    obtain ⟨a, b⟩ := hd
    by_cases h : a = k <;> simp [upsertA, lookupA, h, ih]

/-- A dict write leaves every other key's binding unchanged. -/
theorem lookupA_upsertA_ne {α β : Type} [DecidableEq α]
    (m : List (α × β)) (k k' : α) (v : β) (h : k' ≠ k) :
    lookupA (upsertA m k v) k' = lookupA m k' := by
  induction m with
  | nil => simp [upsertA, lookupA, Ne.symm h]
  | cons hd tl ih =>
    obtain ⟨a, b⟩ := hd
    by_cases ha : a = k
    · subst ha
      simp [upsertA, lookupA, Ne.symm h]
    · simp [upsertA, lookupA, ha, ih]

/-- The keys present after a dict write are the written key plus the old keys. -/
theorem mem_keys_upsertA {α β : Type} [DecidableEq α]
    (m : List (α × β)) (k x : α) (v : β) :
    x ∈ (upsertA m k v).map Prod.fst ↔ x = k ∨ x ∈ m.map Prod.fst := by
  induction m with
  | nil => simp [upsertA]
  | cons hd tl ih =>
    obtain ⟨a, b⟩ := hd
    by_cases h : a = k
    · simp [upsertA, h, ih]
    · simp [upsertA, h, ih]
      tauto

/-- A dict write preserves duplicate-freedom of the key list. -/
theorem nodup_keys_upsertA {α β : Type} [DecidableEq α]
    (m : List (α × β)) (k : α) (v : β)
    (h : (m.map Prod.fst).Nodup) :
    ((upsertA m k v).map Prod.fst).Nodup := by
  induction m with
  | nil => simp [upsertA]
  | cons hd tl ih =>
    obtain ⟨a, b⟩ := hd
    simp only [List.map_cons, List.nodup_cons] at h
    by_cases hak : a = k
    · subst hak
      simpa [upsertA, List.nodup_cons] using h
    · simp only [upsertA, if_neg hak, List.map_cons, List.nodup_cons]
      refine ⟨?_, ih h.2⟩
      rw [mem_keys_upsertA]
      exact fun hc => hc.elim hak h.1

/-- C1: for every BUY signal whose ticker has a registered preset and whose
snapshot has `lastPrice > 0`, the decision logic yields
`PlaceBuy(orderSizeCash / lastPrice, lastPrice)` when
`availableFundsCash ≥ orderSizeCash`, and `SkipInsufficientFunds` otherwise
(lines 142-148). -/
theorem decide_buy_spec (ps : List (String × Preset)) (t : String)
    (cfg : Preset) (snap : Snapshot)
    (_hreg : lookupA ps t = some cfg) (hp : 0 < snap.last) :
    decideTrade "BUY" cfg snap =
      .ok (if snap.availableFunds ≥ cfg.order_size
            then .placeBuy (cfg.order_size / snap.last) snap.last
            else .skipInsufficientFunds) := by
  simp [decideTrade, pydiv, hp.ne']
  rw [apply_ite Except.ok]

/-- Witness for C1 at the spec's own example: preset `{orderSizeCash: 500}`,
snapshot `{lastPrice: 100, availableFundsCash: 1000}`. -/
theorem decide_buy_spec_witness :
    lookupA [("AAPL", (⟨500, 1/10⟩ : Preset))] "AAPL" = some ⟨500, 1/10⟩ ∧
    (0 : ℚ) < 100 ∧
    decideTrade "BUY" ⟨500, 1/10⟩ ⟨100, 1000, none, 0⟩ =
      .ok (if (1000 : ℚ) ≥ 500
            then .placeBuy ((500 : ℚ) / 100) 100
            else .skipInsufficientFunds) :=
  ⟨by decide, by norm_num,
    decide_buy_spec [("AAPL", ⟨500, 1/10⟩)] "AAPL" ⟨500, 1/10⟩
      ⟨100, 1000, none, 0⟩ (by decide) (by norm_num)⟩

/-- C2: for every SELL signal whose ticker has a registered preset, with a
position of positive quantity and positive cost basis, the decision logic
yields `PlaceSell(position.quantity, lastPrice)` when
`unrealizedPnL / costBasis ≥ minProfitPct`, and the skip branch carrying the
PnL (the source's shared `Skip SELL` message, line 155, which here can only
mean the profit threshold was not met) otherwise (lines 149-155). -/
theorem decide_sell_spec (ps : List (String × Preset)) (t : String)
    (cfg : Preset) (snap : Snapshot) (p : Position)
    (_hreg : lookupA ps t = some cfg) (hpos : snap.pos = some p)
    (hq : 0 < p.position) (hcb : 0 < p.avgCost * p.position) :
    decideTrade "SELL" cfg snap =
      .ok (if snap.pnl / (p.avgCost * p.position) ≥ cfg.min_profit_pct
            then .placeSell p.position snap.last
            else .skipSell snap.pnl) := by
  simp [decideTrade, pydiv, hpos, hq, hcb.ne']
  rw [apply_ite Except.ok]

/-- Witness for C2 at the spec's own example: position `{quantity: 10,
avgCost: 50}`, `unrealizedPnL: 100`, `minProfitPct: 0.1`. -/
theorem decide_sell_spec_witness :
    lookupA [("AAPL", (⟨500, 1/10⟩ : Preset))] "AAPL" = some ⟨500, 1/10⟩ ∧
    (⟨100, 1000, some ⟨10, 50⟩, 100⟩ : Snapshot).pos = some ⟨10, 50⟩ ∧
    (0 : ℚ) < 10 ∧ (0 : ℚ) < 50 * 10 ∧
    decideTrade "SELL" ⟨500, 1/10⟩ ⟨100, 1000, some ⟨10, 50⟩, 100⟩ =
      .ok (if (100 : ℚ) / (50 * 10) ≥ 1/10
            then .placeSell 10 100
            else .skipSell 100) :=
  ⟨by decide, rfl, by norm_num, by norm_num,
    decide_sell_spec [("AAPL", ⟨500, 1/10⟩)] "AAPL" ⟨500, 1/10⟩
      ⟨100, 1000, some ⟨10, 50⟩, 100⟩ ⟨10, 50⟩ (by decide) rfl
      (by norm_num) (by norm_num)⟩

/-- C3 (code bug): a webhook request that passes signature verification (the
signature here equals `hmacHex secret payload`), parses, and finds a preset
for its ticker does NOT return a success response: the handler raises
`NameError` — the name `signal` is never bound, because the `"""` on line
131 swallows line 132 into a string literal — and Flask turns that uncaught
exception into an HTTP 500 server error.  (Independently, the handler has no
try/except around the brokerage and notification calls, so any downstream
failure would also escape.) -/
theorem webhook_name_error_at_input :
    webhook (fun s p => s ++ p) (fun _ => .obj (some "AAPL") (some "BUY"))
      ⟨[("AAPL", ⟨500, 1/10⟩)], [], "sec"⟩ "body" "secbody"
      ⟨100, 1000, none, 0⟩ =
      (⟨[("AAPL", ⟨500, 1/10⟩)], [], "sec"⟩, .error .nameError) := rfl

/-- Counterexample to C4: the action `"HOLD"` is neither BUY nor SELL, yet
the decision logic does not fail with any error — the `else:` on line 149
treats every non-BUY signal as a SELL, and here it even places a sell
order (position 10 at avgCost 50, PnL 100: ratio 0.2 ≥ 0.1). -/
theorem decide_hold_not_validation_error :
    ("HOLD" ≠ "BUY" ∧ "HOLD" ≠ "SELL") ∧
    decideTrade "HOLD" ⟨500, 1/10⟩ ⟨100, 1000, some ⟨10, 50⟩, 100⟩ =
      .ok (.placeSell 10 100) :=
  ⟨⟨by decide, by decide⟩, rfl⟩

/-- C4 as amended: the decision logic fails if and only if it divides by
zero, namely when the action is BUY and `lastPrice = 0` (line 144), or when
the action is anything other than BUY (all of which take the SELL branch)
with a positive position whose cost basis `avgCost * quantity` is zero
(line 152).  There is no `ValidationError`: unknown actions are processed as
SELL, and a negative BUY price fails nothing. -/
theorem decide_error_characterization (signal : String) (cfg : Preset)
    (snap : Snapshot) (e : PyErr) :
    decideTrade signal cfg snap = .error e ↔
      (e = .zeroDivision ∧
        ((signal = "BUY" ∧ snap.last = 0) ∨
         (signal ≠ "BUY" ∧ ∃ p, snap.pos = some p ∧ 0 < p.position ∧
           p.avgCost * p.position = 0))) := by
  by_cases hb : signal = "BUY"
  · subst hb
    by_cases hz : snap.last = 0
    · simp [decideTrade, pydiv, hz, eq_comm]
    · simp [decideTrade, pydiv, hz, ite_eq_iff]
  · rcases hp : snap.pos with _ | p
    · simp [decideTrade, pydiv, hb, hp]
    · by_cases hq : 0 < p.position
      · by_cases hc : p.avgCost * p.position = 0
        · simp [decideTrade, pydiv, hb, hp, hq, hc, eq_comm]
          exact fun _ => mul_eq_zero.mp hc
        · simp [decideTrade, pydiv, hb, hp, hq, hc, ite_eq_iff]
          exact fun _ => mul_ne_zero_iff.mp hc
      · simp [decideTrade, pydiv, hb, hp, hq]

/-- Witness for the amended C4: a `"HOLD"` action with a positive position
of zero average cost raises `ZeroDivisionError`. -/
theorem decide_error_characterization_witness :
    decideTrade "HOLD" ⟨500, 1/10⟩ ⟨100, 1000, some ⟨5, 0⟩, 7⟩ =
      .error .zeroDivision :=
  (decide_error_characterization "HOLD" ⟨500, 1/10⟩
      ⟨100, 1000, some ⟨5, 0⟩, 7⟩ .zeroDivision).mpr
    ⟨rfl, Or.inr ⟨by decide, ⟨5, 0⟩, rfl, by norm_num, by norm_num⟩⟩

/-- C5 (code bug): a SELL with a position of positive quantity (10) but zero
cost basis (`avgCost = 0`, so `avgCost * quantity = 0 ≤ 0`) does not yield
`SkipNoPosition`: the source has no cost-basis guard, and line 152 divides
the PnL by zero, raising `ZeroDivisionError` — evaluation is not total. -/
theorem decide_sell_zero_cost_basis_divzero :
    (0 : ℚ) < 10 ∧ ((0 : ℚ) * 10 ≤ 0) ∧
    decideTrade "SELL" ⟨500, 1/10⟩ ⟨100, 1000, some ⟨10, 0⟩, 100⟩ =
      .error .zeroDivision :=
  ⟨by norm_num, by norm_num, rfl⟩

/-- C6: for every webhook request whose signature header differs from the
HMAC of the raw payload under the current secret, the handler returns the
403 client-error response with no body, sends no notification, places no
order, and returns the state unchanged.  The parse function is universally
quantified, so the result holds even for payloads that could not be parsed:
the payload is never parsed on this path (lines 124-128, `abort(403)`
before `json.loads`). -/
theorem webhook_reject_bad_signature (hmacHex : String → String → String)
    (parse : String → ParsedBody) (st : BotState) (rawPayload sig : String)
    (mkt : Snapshot) (h : sig ≠ hmacHex st.webhook_secret rawPayload) :
    webhook hmacHex parse st rawPayload sig mkt = (st, .ok (403, [], [])) := by
  simp [webhook, h]

/-- Witness for C6: an empty signature header against secret `"k"` and
payload `"m"`, with a parse function that rejects everything. -/
theorem webhook_reject_bad_signature_witness :
    ("" : String) ≠ "k" ++ "m" ∧
    webhook (fun s p => s ++ p) (fun _ => .malformed) ⟨[], [], "k"⟩ "m" ""
      ⟨0, 0, none, 0⟩ = (⟨[], [], "k"⟩, .ok (403, [], [])) :=
  ⟨by decide,
   webhook_reject_bad_signature (fun s p => s ++ p) (fun _ => .malformed)
     ⟨[], [], "k"⟩ "m" "" ⟨0, 0, none, 0⟩ (by decide)⟩

/-- C7: for every HMAC function, secret and payload, the signature check of
lines 126-128 accepts exactly the signature equal to
`hmacHex secret payload` (the hex digest of HMAC-SHA256 keyed by the
current secret): it accepts that value and rejects every other string —
including the empty and any malformed one, since those differ from the
64-character hex digest. -/
theorem verify_signature_iff (hmacHex : String → String → String)
    (secret payload : String) :
    verify hmacHex secret payload (hmacHex secret payload) = true ∧
    ∀ sig : String, sig ≠ hmacHex secret payload →
      verify hmacHex secret payload sig = false := by
  refine ⟨by simp [verify], fun sig h => ?_⟩
  simp [verify, h]

/-- Witness for C7: with the concrete function `fun s p => s ++ p`, secret
`"k"` and payload `"m"`, the matching signature verifies and the empty
signature does not. -/
theorem verify_signature_iff_witness :
    verify (fun s p => s ++ p) "k" "m" ("k" ++ "m") = true ∧
    verify (fun s p => s ++ p) "k" "m" "" = false :=
  ⟨(verify_signature_iff (fun s p => s ++ p) "k" "m").1,
   (verify_signature_iff (fun s p => s ++ p) "k" "m").2 "" (by decide)⟩

/-- Counterexample to C8: the one-shot `/set AAPL -5 10` is accepted without
any validation of the size: starting from the empty registry (where the
positivity invariant holds), the write stores `order_size = -5`, which is
not `> 0`.  The interactive path stores unvalidated sizes the same way. -/
theorem one_shot_set_negative_size :
    telegram_config "1" ⟨[], [], "sec"⟩ 1 "/set AAPL -5 10" =
      .ok (⟨[("AAPL", ⟨-5, 1/10⟩)], [], "sec"⟩, 200,
        [.presetSaved "AAPL"]) ∧
    ¬ ((-5 : ℚ) > 0) :=
  ⟨rfl, by norm_num⟩

/-- C8 as amended: preset writes (both paths store through dict assignment,
`upsertA`) keep exactly one preset per ticker — the written key's binding is
the new value, other tickers are untouched, and duplicate-freedom of the
key set is preserved — and the last write wins, as the concrete run of
`/set AAPL 100 5` followed by `/set AAPL 200 10` shows; but `orderSizeCash >
0` is NOT an invariant: no write path validates the size (see the
counterexample). -/
theorem preset_write_last_write_wins (m : List (String × Preset))
    (k k' : String) (v : Preset) :
    lookupA (upsertA m k v) k = some v ∧
    (k' ≠ k → lookupA (upsertA m k v) k' = lookupA m k') ∧
    ((m.map Prod.fst).Nodup → ((upsertA m k v).map Prod.fst).Nodup) ∧
    runMsgs "1" 1 ⟨[], [], "sec"⟩ ["/set AAPL 100 5", "/set AAPL 200 10"] =
      some ⟨[("AAPL", ⟨200, 1/10⟩)], [], "sec"⟩ :=
  ⟨lookupA_upsertA_self m k v,
   lookupA_upsertA_ne m k k' v,
   nodup_keys_upsertA m k v,
   by decide⟩

/-- Witness for the amended C8: overwriting `"AAPL"` leaves the `"MSFT"`
binding unchanged. -/
theorem preset_write_last_write_wins_witness :
    lookupA (upsertA [("MSFT", (⟨1, 1⟩ : Preset))] "AAPL" ⟨2, 1⟩) "MSFT" =
      lookupA [("MSFT", (⟨1, 1⟩ : Preset))] "MSFT" :=
  (preset_write_last_write_wins [("MSFT", ⟨1, 1⟩)] "AAPL" "MSFT" ⟨2, 1⟩).2.1
    (by decide)

/-- C9: from a state with no open session, the operator sequence `/set`,
`"AAPL"`, `"100"`, `"5"` leaves the registry with
`AAPL -> {orderSizeCash: 100, minProfitPct: 1/20 = 0.05}` and no session
for the operator (lines 79-105: open at step ticker, store ticker, store
size, store preset and pop the session). -/
theorem interactive_set_sequence :
    (runMsgs "1" 1 ⟨[], [], "sec"⟩ ["/set", "AAPL", "100", "5"]).map
      (fun st => (lookupA st.presets "AAPL", lookupA st.user_states 1)) =
    some (some ⟨100, 1/20⟩, none) := by decide

/-- Counterexample to C10: with a session open at the ticker step, the
message `/getsecret` is NOT stored as the ticker — the `/getsecret` branch
(line 60) runs before the session block (line 85), so the handler replies
with the secret and leaves the session unchanged at step ticker. -/
theorem ticker_step_getsecret_not_stored :
    telegram_config "1" ⟨[], [(1, ⟨.ticker, none, none⟩)], "sec"⟩ 1
      "/getsecret" =
    .ok (⟨[], [(1, ⟨.ticker, none, none⟩)], "sec"⟩, 200,
      [.currentSecret "sec"]) := rfl

/-- C10 as amended: with a session open at the ticker step, any operator
text is stored uppercased as the session's ticker and the session advances
to the size step, EXCEPT texts the earlier command branches consume: those
starting (case-insensitively) with `/setsecret `, the exact text
`/getsecret`, and `/set ` commands of exactly 4 whitespace tokens (which
return one-shot handling or a usage message before the session block). -/
theorem ticker_step_stores_text (op : String) (cid : Int) (st : BotState)
    (text : String) (sess : Session)
    (hop : toString cid = op)
    (hsess : lookupA st.user_states cid = some sess)
    (hstep : sess.step = .ticker)
    (h1 : pyStartsWith (pyLower (pyStrip text)) "/setsecret " = false)
    (h2 : pyLower (pyStrip text) ≠ "/getsecret")
    (h3 : ¬ (pyStartsWith (pyLower (pyStrip text)) "/set " = true ∧
            (pySplit (pyStrip text)).length = 4)) :
    telegram_config op st cid text =
      .ok ({st with user_states := (upsertA st.user_states cid
              ⟨.size, some (pyUpper (pyStrip text)), sess.order_size⟩)},
           200, [.enterSize]) := by
  simp [telegram_config, hop, h1, h2, h3, hsess, hstep]

/-- Witness for the amended C10: the text `tsla` is stored as ticker
`TSLA` and the session advances to the size step. -/
theorem ticker_step_stores_text_witness :
    telegram_config "1" ⟨[], [(1, ⟨.ticker, none, none⟩)], "sec"⟩ 1 "tsla" =
      .ok (⟨[], [(1, ⟨.size, some "TSLA", none⟩)], "sec"⟩, 200,
        [.enterSize]) := by
  have h := ticker_step_stores_text "1" 1
      ⟨[], [(1, ⟨.ticker, none, none⟩)], "sec"⟩ "tsla" ⟨.ticker, none, none⟩
      (by decide) rfl rfl (by decide) (by decide) (by decide)
  exact h
